import Mathlib

/-!
Verification of the TOPDON TC001 thermal-camera HTTP streaming server
(`rtsp_server.py`) against its natural-language specification.

The Python program is shallowly embedded: numpy frames become nested lists
of byte values (`Nat`), Python float arithmetic on the temperature becomes
exact rational arithmetic (`ℚ`), the external OpenCV image operations become
constructors of a symbolic image type, and the capture loop and the HTTP
handler become pure functions over explicit input traces.
-/

namespace RtspServer

/-- A raw camera frame: a list of rows, each row a list of pixels, each
pixel a list of byte values, mirroring numpy indexing `frame[r][c][i]`. -/
structure RawFrame where
  rows : List (List (List Nat))
deriving DecidableEq, Repr

/-- `np.array_split(a, 2)` on the row axis: the first part receives
`⌈n/2⌉` rows and the second part the remaining `⌊n/2⌋` rows
(source line 114: `imdata, thdata = np.array_split(frame, 2)`). -/
def arraySplit2 (rows : List (List (List Nat))) :
    List (List (List Nat)) × List (List (List Nat)) :=
  (rows.take ((rows.length + 1) / 2), rows.drop ((rows.length + 1) / 2))

/-- The visual half `imdata` of a raw frame (top rows of the split). -/
def imdata (f : RawFrame) : List (List (List Nat)) :=
  (arraySplit2 f.rows).1

/-- The thermal half `thdata` of a raw frame (bottom rows of the split). -/
def thdata (f : RawFrame) : List (List (List Nat)) :=
  (arraySplit2 f.rows).2

/-- Byte `i` of the thermal pixel at row 96, column 128 of the thermal
half (source lines 117-118 index `thdata[96][128][i]`); out-of-range
indices read as 0, matching no real camera frame. -/
def thermalByte (f : RawFrame) (i : Nat) : Nat :=
  (((thdata f).getD 96 []).getD 128 []).getD i 0

/-- Temperature decode of source lines 117-121, as a function of the two
bytes `hi = thdata[96][128][0]` and `lo = thdata[96][128][1]`:
`lo = lo*256; rawtemp = hi+lo; temp = (rawtemp/64)-273.15`. -/
def decodeTemp (hi lo : Nat) : ℚ :=
  let lo2 : ℚ := (lo : ℚ) * 256
  let rawtemp : ℚ := (hi : ℚ) + lo2
  rawtemp / 64 - 273.15

/-- The temperature the capture loop computes for a raw frame
(source lines 117-121). -/
def frameTemp (f : RawFrame) : ℚ :=
  decodeTemp (thermalByte f 0) (thermalByte f 1)

/-- Modelled from the spec: the spec's temperature formula
`((low*256 + high) / 64) - 273.15` as a function of its named `low` and
`high` arguments, kept separate from the source's `decodeTemp` so the two
can be compared under each assignment of bytes to the two roles. -/
def specTempFormula (low high : Nat) : ℚ :=
  ((low : ℚ) * 256 + (high : ℚ)) / 64 - 273.15

/-- An all-zero 256-pixel row of 2-byte thermal samples. -/
def zeroRow : List (List Nat) := List.replicate 256 [0, 0]

/-- A row whose pixel 128 holds the byte pair `[1, 0]`. -/
def exRow : List (List Nat) :=
  List.replicate 128 [0, 0] ++ [[1, 0]] ++ List.replicate 127 [0, 0]

/-- A concrete 384-row raw frame whose thermal half carries the byte pair
`(1, 0)` at row 96, column 128 (global row 288), and zeros elsewhere. -/
def exFrame : RawFrame :=
  ⟨List.replicate 288 zeroRow ++ [exRow] ++ List.replicate 95 zeroRow⟩

/-- A row whose pixel 0 holds the byte pair `[7, 7]`. -/
def markedRow : List (List Nat) :=
  [[7, 7]] ++ List.replicate 255 [0, 0]

/-- A frame with the same thermal reading at (96,128) as `exFrame` but a
different visual half (its first row is `markedRow`). -/
def exFrameB : RawFrame :=
  ⟨[markedRow] ++ List.replicate 287 zeroRow ++ [exRow] ++ List.replicate 95 zeroRow⟩

/-! ### Symbolic images and the frame pipeline (source lines 94-135)

The OpenCV operations are external collaborators; they are embedded
symbolically, as constructors recording which operation was applied with
which arguments, so that the order and arguments of the pipeline are
provable facts. -/

/-- Interpolation mode passed to `cv2.resize`. -/
inductive Interp where
  | cubic
deriving DecidableEq, Repr

/-- Colormap palette passed to `cv2.applyColorMap`. -/
inductive Palette where
  | jet
deriving DecidableEq, Repr

/-- Font passed to `cv2.putText`. -/
inductive Font where
  | hersheySimplex
deriving DecidableEq, Repr

/-- A symbolic image: either the raw visual half of a frame, or the result
of one external OpenCV operation applied to a symbolic image.  The
`putText` node records the temperature value whose 1-decimal rendering is
burned in, together with anchor, font, font scale, BGR color and
thickness (source lines 134-135). -/
inductive Img where
  | visual (rows : List (List (List Nat)))
  | cvtColorYUV2BGR_YUYV (i : Img)
  | convertScaleAbs (i : Img) (alpha : ℚ)
  | resize (i : Img) (w h : Nat) (interp : Interp)
  | blur (i : Img) (kw kh : Nat)
  | applyColorMap (i : Img) (cmap : Palette)
  | putText (i : Img) (temp : ℚ) (x y : Nat) (font : Font) (fontScale : Nat)
      (color : Nat × Nat × Nat) (thickness : Nat)
deriving DecidableEq, Repr

/-- Settings, source lines 95-103. -/
def width : Nat := 256

/-- Source line 96. -/
def height : Nat := 192

/-- Source line 97. -/
def scale : Nat := 3

/-- Source line 98: `newWidth = width*scale`. -/
def newWidth : Nat := width * scale

/-- Source line 99: `newHeight = height*scale`. -/
def newHeight : Nat := height * scale

/-- Source line 100: `alpha = 1.0`, the default brightness gain. -/
def alphaDefault : ℚ := 1.0

/-- Source line 102: `rad = 0`, the default blur radius. -/
def radDefault : Nat := 0

/-- One capture-loop frame transform (source lines 113-135): split off the
visual half, then color conversion, brightness scaling, cubic upscale to
`newWidth × newHeight`, blur only when the radius is positive, jet
colormap, and the temperature text overlay at (10, 30), font scale 1,
white, thickness 2. -/
def processFrame (radius : Nat) (a : ℚ) (f : RawFrame) : Img :=
  let temp := frameTemp f
  let bgr := Img.cvtColorYUV2BGR_YUYV (Img.visual (imdata f))
  let bgr2 := Img.convertScaleAbs bgr a
  let bgr3 := Img.resize bgr2 newWidth newHeight Interp.cubic
  let bgr4 := if radius > 0 then Img.blur bgr3 radius radius else bgr3
  let heatmap := Img.applyColorMap bgr4 Palette.jet
  Img.putText heatmap temp 10 30 Font.hersheySimplex 1 (255, 255, 255) 2

/-! ### Frame Store (source lines 52-61) -/

/-- The mutable state of `ThreadedHTTPServer`: the single
`current_frame` slot. -/
structure ServerState where
  current_frame : Option Img
deriving DecidableEq, Repr

/-- `ThreadedHTTPServer.__init__` sets `self.current_frame = None`
(source line 55). -/
def initServer : ServerState := ⟨none⟩

/-- `set_frame` (source lines 57-58): wholesale replacement of the slot. -/
def set_frame (_s : ServerState) (f : Img) : ServerState := ⟨some f⟩

/-- `get_frame` (source lines 60-61): return the slot. -/
def get_frame (s : ServerState) : Option Img := s.current_frame

/-- One atomic access to the Frame Store.  Each Python attribute
assignment or attribute read is a single indivisible step, so an
interleaving of the capture thread's `set_frame` calls with the
connection threads' `get_frame` calls is exactly a sequence of these
operations. -/
inductive StoreOp where
  | publish (f : Img)
  | read
deriving DecidableEq, Repr

/-- Run a sequence of store operations from a state, collecting the value
returned by each `read`. -/
def runStore (s : ServerState) : List StoreOp → List (Option Img)
  | [] => []
  | StoreOp.publish f :: rest => runStore (set_frame s f) rest
  | StoreOp.read :: rest => get_frame s :: runStore s rest

/-! ### HTTP handler (source lines 16-50) -/

/-- The exact HTML document written for `GET /` (source lines 22-32). -/
def indexHtml : String :=
  "\n                <html>\n                <head>\n                    <title>Thermal Camera Stream</title>\n                </head>\n                <body>\n                    <h1>Thermal Camera Stream</h1>\n                    <img src=\"/stream\" />\n                </body>\n                </html>\n            "

/-- UTF-8 bytes of an ASCII string, as numbers. -/
def asciiBytes (s : String) : List Nat := s.toList.map Char.toNat

/-- The bytes of one multipart part for a JPEG payload: the four
`wfile.write` calls of source lines 42-45 in order. -/
def streamPart (jpeg : List Nat) : List Nat :=
  asciiBytes "--frame\r\n" ++ asciiBytes "Content-Type: image/jpeg\r\n\r\n" ++
    jpeg ++ asciiBytes "\r\n"

/-- One iteration of the `/stream` loop (source lines 38-45): read the
store; if a frame is present, JPEG-encode it (`enc` models
`cv2.imencode`, an external collaborator) and write one part, otherwise
write nothing. -/
def streamIteration (enc : Img → List Nat) (frame : Option Img) : List Nat :=
  match frame with
  | none => []
  | some f => streamPart (enc f)

/-- The bytes a `/stream` connection writes after its headers, given the
sequence of store values its loop iterations observe. -/
def streamRun (enc : Img → List Nat) (reads : List (Option Img)) : List Nat :=
  (reads.map (streamIteration enc)).flatten

/-- What one `GET` connection produces: the response status, the
`Content-type` header set by the handler (if any), and the bytes the
handler itself writes after the headers. -/
structure ConnResult where
  status : Nat
  contentType : Option String
  streamBody : List Nat
deriving DecidableEq, Repr

/-- `StreamingHandler.do_GET` (source lines 17-50), as a function of the
request path, the JPEG encoder, and the store values a `/stream` loop
observes.  The `404` branch calls `send_error(404)`; the handler itself
writes no stream content there. -/
def do_GET (enc : Img → List Nat) (reads : List (Option Img)) (path : String) : ConnResult :=
  if path = "/" then ⟨200, some "text/html", asciiBytes indexHtml⟩
  else if path = "/stream" then
    ⟨200, some "multipart/x-mixed-replace; boundary=frame", streamRun enc reads⟩
  else ⟨404, none, []⟩

/-! ### Capture loop and shutdown (source lines 107-155) -/

/-- Result of one `cap.read()` call: a frame, or a failed read
(`ret` false). -/
inductive CamResult where
  | ok (f : RawFrame)
  | fail
deriving DecidableEq, Repr

/-- An observable action of the main program: a publish into the Frame
Store, a local display of a frame, or one of the shutdown steps. -/
inductive Action where
  | publish (f : Img)
  | display (f : Img)
  | release
  | shutdown
  | serverClose
  | destroyWindows
deriving DecidableEq, Repr

/-- The capture loop (source lines 108-144) over a trace of inputs: each
iteration consumes one `cap.read()` result paired with whether `waitKey`
reports the quit key during that iteration.  A failed read breaks the
loop; otherwise the processed frame is published, and, when not headless,
also displayed, after which a quit key breaks the loop.  The end of the
input list models the camera closing or an external interrupt. -/
def captureLoop (headless : Bool) (radius : Nat) (a : ℚ) :
    List (CamResult × Bool) → List Action
  | [] => []
  | (CamResult.fail, _) :: _ => []
  | (CamResult.ok f, key) :: rest =>
    let heatmap := processFrame radius a f
    Action.publish heatmap ::
      (if headless then captureLoop headless radius a rest
       else Action.display heatmap ::
         (if key then [] else captureLoop headless radius a rest))

/-- The `finally` block (source lines 149-154): release the camera, shut
down the server, close it, and destroy the display windows only when not
headless. -/
def shutdownSeq (headless : Bool) : List Action :=
  [Action.release, Action.shutdown, Action.serverClose] ++
    if headless then [] else [Action.destroyWindows]

/-- The whole main program after startup: the capture loop followed by
the shutdown sequence. -/
def captureMain (headless : Bool) (radius : Nat) (a : ℚ)
    (inputs : List (CamResult × Bool)) : List Action :=
  captureLoop headless radius a inputs ++ shutdownSeq headless

/-- A concrete image used to instantiate theorems. -/
def exImg : Img := processFrame radDefault alphaDefault exFrame

/-- A concrete JPEG encoder used to instantiate theorems. -/
def encConst : Img → List Nat := fun _ => [255, 216, 255, 217]

end RtspServer

namespace RtspServer

/-! ## Theorems -/

set_option maxRecDepth 8000

/-- Claim C1 as stated is FALSE: with `low` the first byte and `high` the
second byte of the thermal reading at (96,128), the decoded temperature
does not equal `((low*256 + high)/64) - 273.15`.  Concrete input: a frame
whose thermal bytes there are first byte 1, second byte 0; the code
decodes it to `1/64 - 273.15`, while the claim's formula gives `-269.15`. -/
theorem C1_counterexample :
    thermalByte exFrame 0 = 1 ∧ thermalByte exFrame 1 = 0 ∧
    frameTemp exFrame ≠ specTempFormula (thermalByte exFrame 0) (thermalByte exFrame 1) := by
  have h0 : thermalByte exFrame 0 = 1 := by decide
  have h1 : thermalByte exFrame 1 = 0 := by decide
  refine ⟨h0, h1, ?_⟩
  rw [frameTemp, h0, h1]
  norm_num [decodeTemp, specTempFormula]

/-- Claim C1 (amended): for every captured raw frame, the decoded
temperature equals `((low*256 + high)/64) - 273.15` where `low` is the
SECOND byte and `high` is the FIRST byte of the 16-bit thermal reading at
row 96, column 128 of the thermal half. -/
theorem C1_temperature_formula (f : RawFrame) :
    frameTemp f = specTempFormula (thermalByte f 1) (thermalByte f 0) := by
  simp only [frameTemp, decodeTemp, specTempFormula]
  ring

/-- Claim C2: temperature decoding is a pure function of the two thermal
bytes at coordinate (96,128) — frames agreeing on those two bytes decode
to the same temperature — and on specific inputs: both bytes 0 gives
`-273.15` °C, and first byte 64 with second byte 0 gives
`(64/64) - 273.15 = -272.15` °C. -/
theorem C2_decode_pure_and_values :
    (∀ f g : RawFrame, thermalByte f 0 = thermalByte g 0 →
      thermalByte f 1 = thermalByte g 1 → frameTemp f = frameTemp g) ∧
    decodeTemp 0 0 = -273.15 ∧
    decodeTemp 64 0 = 64 / 64 - 273.15 ∧ decodeTemp 64 0 = -272.15 := by
  refine ⟨fun f g h0 h1 => ?_, by norm_num [decodeTemp], by norm_num [decodeTemp],
    by norm_num [decodeTemp]⟩
  rw [frameTemp, h0, h1, frameTemp]

/-- Witness for C2: two concrete frames that differ in their visual half
but share the thermal bytes at (96,128) decode to the same temperature. -/
theorem C2_decode_pure_and_values_witness :
    frameTemp exFrame = frameTemp exFrameB :=
  C2_decode_pure_and_values.1 exFrame exFrameB (by decide) (by decide)

/-- Every value returned by a read in a run of store operations is either
the starting state's slot value or a frame published somewhere in the
sequence. -/
lemma runStore_sound (ops : List StoreOp) : ∀ s : ServerState, ∀ r ∈ runStore s ops,
    r = s.current_frame ∨ ∃ f, r = some f ∧ StoreOp.publish f ∈ ops := by
  induction ops with
  | nil => intro s r hr; simp [runStore] at hr
  | cons op rest ih =>
    intro s r hr
    cases op with
    | publish f =>
      simp only [runStore] at hr
      rcases ih (set_frame s f) r hr with h | ⟨g, hg, hmem⟩
      · exact Or.inr ⟨f, by simpa [set_frame] using h, by simp⟩
      · exact Or.inr ⟨g, hg, by simp [hmem]⟩
    | read =>
      simp only [runStore, List.mem_cons] at hr
      rcases hr with rfl | hr
      · exact Or.inl (by simp [get_frame])
      · rcases ih s r hr with h | ⟨g, hg, hmem⟩
        · exact Or.inl h
        · exact Or.inr ⟨g, hg, by simp [hmem]⟩

/-- Claim C3: a `get_frame` before any `set_frame` has ever occurred
returns the explicit not-yet-available value `none`, never a default or
garbage frame; the slot is initialized empty at server construction. -/
theorem C3_store_empty_before_publish :
    get_frame initServer = none ∧ initServer.current_frame = none ∧
    ∀ ops : List StoreOp, (∀ f : Img, StoreOp.publish f ∉ ops) →
      ∀ r ∈ runStore initServer ops, r = none := by
  refine ⟨rfl, rfl, fun ops hno r hr => ?_⟩
  rcases runStore_sound ops initServer r hr with h | ⟨g, _, hmem⟩
  · simpa [initServer] using h
  · exact absurd hmem (hno g)

/-- Witness for C3: a run of two reads with no publish returns `none`. -/
theorem C3_store_empty_before_publish_witness :
    (runStore initServer [StoreOp.read, StoreOp.read]).headD none = none := by
  apply C3_store_empty_before_publish.2.2 [StoreOp.read, StoreOp.read]
    (fun f hf => by simp at hf)
  simp [runStore, get_frame, initServer]

/-- Claim C5: over every interleaving of atomic `set_frame` and
`get_frame` steps starting from the freshly constructed server, each read
returns either the empty value or one complete previously published
frame — never a value that is not some whole published frame (no
tearing). -/
theorem C5_no_torn_reads :
    ∀ ops : List StoreOp, ∀ r ∈ runStore initServer ops,
      r = none ∨ ∃ f : Img, r = some f ∧ StoreOp.publish f ∈ ops := by
  intro ops r hr
  rcases runStore_sound ops initServer r hr with h | h
  · exact Or.inl (by simpa [initServer] using h)
  · exact Or.inr h

/-- Witness for C5: after publishing a concrete frame, a read returns
exactly that published frame. -/
theorem C5_no_torn_reads_witness :
    some exImg = none ∨ ∃ f : Img, some exImg = some f ∧
      StoreOp.publish f ∈ [StoreOp.publish exImg, StoreOp.read] :=
  C5_no_torn_reads [StoreOp.publish exImg, StoreOp.read] (some exImg)
    (by simp [runStore, set_frame, get_frame])

/-- Claim C4: a `/stream` connection's response carries status 200 and
content type `multipart/x-mixed-replace; boundary=frame`, and each frame
sent produces exactly one multipart part, byte-exact: the boundary line
`--frame` with line break, the `Content-Type: image/jpeg` header line, a
blank line, the raw JPEG payload, and a trailing line break. -/
theorem C4_multipart_framing :
    (∀ (enc : Img → List Nat) (reads : List (Option Img)),
      (do_GET enc reads "/stream").status = 200 ∧
      (do_GET enc reads "/stream").contentType =
        some "multipart/x-mixed-replace; boundary=frame") ∧
    ∀ (enc : Img → List Nat) (f : Img),
      streamIteration enc (some f) =
        asciiBytes "--frame\r\n" ++ asciiBytes "Content-Type: image/jpeg\r\n" ++
          asciiBytes "\r\n" ++ enc f ++ asciiBytes "\r\n" := by
  have hB : asciiBytes "Content-Type: image/jpeg\r\n\r\n" =
      asciiBytes "Content-Type: image/jpeg\r\n" ++ asciiBytes "\r\n" := by rfl
  refine ⟨fun enc reads => ⟨rfl, rfl⟩, fun enc f => ?_⟩
  simp [streamIteration, streamPart, hB, List.append_assoc]

/-- Witness for C4: the part layout at a concrete encoder and frame. -/
theorem C4_multipart_framing_witness :
    streamIteration encConst (some exImg) =
      asciiBytes "--frame\r\n" ++ asciiBytes "Content-Type: image/jpeg\r\n" ++
        asciiBytes "\r\n" ++ encConst exImg ++ asciiBytes "\r\n" :=
  C4_multipart_framing.2 encConst exImg

/-- A `/stream` loop whose every store read is empty writes nothing. -/
lemma streamRun_all_none (enc : Img → List Nat) (reads : List (Option Img)) :
    (∀ r ∈ reads, r = none) → streamRun enc reads = [] := by
  induction reads with
  | nil => intro _; rfl
  | cons a t ih =>
    intro h
    have ha : a = none := h a (by simp)
    have ht : streamRun enc t = [] := ih (fun r hr => h r (by simp [hr]))
    simp only [streamRun, List.map_cons, List.flatten_cons] at ht ⊢
    simp [ha, streamIteration, ht]

/-- Claim C9: in each `/stream` loop iteration, bytes are written iff the
store read returned a frame; while the store is empty the connection
writes nothing after its headers, and each present frame yields exactly
one complete part. -/
theorem C9_stream_writes_iff_frame :
    (∀ (enc : Img → List Nat) (st : Option Img),
      streamIteration enc st = [] ↔ st = none) ∧
    (∀ (enc : Img → List Nat) (f : Img),
      streamIteration enc (some f) = streamPart (enc f)) ∧
    (∀ (enc : Img → List Nat) (reads : List (Option Img)),
      (∀ r ∈ reads, r = none) → (do_GET enc reads "/stream").streamBody = []) ∧
    (∀ (enc : Img → List Nat) (reads : List (Option Img)),
      (do_GET enc reads "/stream").streamBody =
        (reads.map (streamIteration enc)).flatten) := by
  refine ⟨fun enc st => ?_, fun enc f => rfl,
    fun enc reads h => ?_, fun enc reads => rfl⟩
  · cases st with
    | none => simp [streamIteration]
    | some f => simp [streamIteration, streamPart, asciiBytes]
  · have h2 := streamRun_all_none enc reads h
    simpa [do_GET] using h2

/-- Witness for C9: a connection observing only empty reads writes no
body bytes. -/
theorem C9_stream_writes_iff_frame_witness :
    (do_GET encConst [none, none] "/stream").streamBody = [] :=
  C9_stream_writes_iff_frame.2.2.1 encConst [none, none] (by simp)

/-- Claim C8: every GET whose path is neither `/` nor `/stream` gets a
404 response on which the handler writes no stream content, while `/`
gets 200 with an HTML body that contains an image tag whose source is the
`/stream` route. -/
theorem C8_routing :
    (∀ (enc : Img → List Nat) (reads : List (Option Img)) (path : String),
      path ≠ "/" → path ≠ "/stream" →
      do_GET enc reads path = ⟨404, none, []⟩) ∧
    (∀ (enc : Img → List Nat) (reads : List (Option Img)),
      do_GET enc reads "/" = ⟨200, some "text/html", asciiBytes indexHtml⟩) ∧
    ∃ pre suf : String, indexHtml = pre ++ "<img src=\"/stream\" />" ++ suf := by
  refine ⟨fun enc reads path h1 h2 => by simp [do_GET, h1, h2],
    fun enc reads => rfl,
    ⟨"\n                <html>\n                <head>\n                    <title>Thermal Camera Stream</title>\n                </head>\n                <body>\n                    <h1>Thermal Camera Stream</h1>\n                    ",
     "\n                </body>\n                </html>\n            ", by decide⟩⟩

/-- Witness for C8: a concrete unknown path gets the 404 result. -/
theorem C8_routing_witness :
    do_GET encConst [] "/bad" = ⟨404, none, []⟩ :=
  C8_routing.1 encConst [] "/bad" (by decide) (by decide)

/-- The actions one successful no-quit iteration emits: a publish, plus a
display when not headless. -/
def iterActs (headless : Bool) (radius : Nat) (a : ℚ) (f : RawFrame) : List Action :=
  Action.publish (processFrame radius a f) ::
    (if headless then [] else [Action.display (processFrame radius a f)])

/-- The capture loop runs through a prefix of successful, no-quit-key
reads without breaking, emitting each iteration's actions, and continues
on the remaining input. -/
lemma captureLoop_ok_append (h : Bool) (radius : Nat) (a : ℚ)
    (pre : List RawFrame) (tail : List (CamResult × Bool)) :
    captureLoop h radius a (pre.map (fun f => (CamResult.ok f, false)) ++ tail) =
      (pre.map (iterActs h radius a)).flatten ++ captureLoop h radius a tail := by
  induction pre with
  | nil => simp
  | cons f t ih =>
    cases h with
    | true => simp [captureLoop, iterActs, ih]
    | false => simp [captureLoop, iterActs, ih]

/-- Claim C6: when a camera read fails, the capture loop terminates at
once — the rest of the input is ignored, no further publish happens, no
retry — and the program proceeds to the shutdown sequence: release the
camera, shut down the server, close it. -/
theorem C6_fail_terminates (h : Bool) (radius : Nat) (a : ℚ)
    (pre : List RawFrame) (k : Bool) (rest : List (CamResult × Bool)) :
    captureMain h radius a
        (pre.map (fun f => (CamResult.ok f, false)) ++ (CamResult.fail, k) :: rest) =
      (pre.map (iterActs h radius a)).flatten ++ shutdownSeq h ∧
    captureLoop h radius a ((CamResult.fail, k) :: rest) = [] ∧
    (∀ g : Img, Action.publish g ∉ shutdownSeq h) ∧
    shutdownSeq h = [Action.release, Action.shutdown, Action.serverClose] ++
      (if h then [] else [Action.destroyWindows]) := by
  refine ⟨?_, rfl, ?_, rfl⟩
  · rw [captureMain, captureLoop_ok_append]
    simp [captureLoop]
  · intro g
    cases h <;> simp [shutdownSeq]

/-- Witness for C6: a concrete run with one good frame, then a failed
read, then further input that is ignored. -/
theorem C6_fail_terminates_witness :
    captureMain true 0 1
        ([exFrame].map (fun f => (CamResult.ok f, false)) ++
          (CamResult.fail, true) :: [(CamResult.ok exFrameB, true)]) =
      ([exFrame].map (iterActs true 0 1)).flatten ++ shutdownSeq true :=
  (C6_fail_terminates true 0 1 [exFrame] true [(CamResult.ok exFrameB, true)]).1

/-- Claim C7: each successfully captured frame is processed, in order, by
YUV-to-BGR conversion, brightness scaling, cubic upscale from 256×192 to
768×576 (factor 3), a blur only when the radius is positive, the jet
colormap, and the temperature overlay at the fixed anchor — and exactly
this pipeline result is what the loop publishes; the visual half is the
top half of the even row split. -/
theorem C7_pipeline_published (radius : Nat) (a : ℚ) (f : RawFrame)
    (h key : Bool) (rest : List (CamResult × Bool)) :
    processFrame radius a f =
      Img.putText
        (Img.applyColorMap
          (if radius > 0 then
            Img.blur (Img.resize (Img.convertScaleAbs
              (Img.cvtColorYUV2BGR_YUYV (Img.visual (imdata f))) a)
              newWidth newHeight Interp.cubic) radius radius
           else
            Img.resize (Img.convertScaleAbs
              (Img.cvtColorYUV2BGR_YUYV (Img.visual (imdata f))) a)
              newWidth newHeight Interp.cubic)
          Palette.jet)
        (frameTemp f) 10 30 Font.hersheySimplex 1 (255, 255, 255) 2 ∧
    (captureLoop h radius a ((CamResult.ok f, key) :: rest)).head? =
      some (Action.publish (processFrame radius a f)) ∧
    newWidth = 768 ∧ newHeight = 576 ∧
    imdata f = f.rows.take ((f.rows.length + 1) / 2) ∧
    (f.rows.length % 2 = 0 →
      (imdata f).length = f.rows.length / 2 ∧
      (thdata f).length = f.rows.length / 2) := by
  refine ⟨rfl, by simp [captureLoop], rfl, rfl, rfl, fun heven => ?_⟩
  constructor
  · simp only [imdata, arraySplit2, List.length_take]
    omega
  · simp only [thdata, arraySplit2, List.length_drop]
    omega

/-- Witness for C7: on the concrete 384-row frame the visual half has
exactly half the rows. -/
theorem C7_pipeline_published_witness :
    (imdata exFrame).length = exFrame.rows.length / 2 :=
  ((C7_pipeline_published 0 1 exFrame false false []).2.2.2.2.2
    (by simp [exFrame])).1

/-- Claim C10: with `--headless` set, the capture loop never displays a
frame and never reads the keyboard — its output does not depend on the
quit-key inputs — so the quit-keystroke exit can never fire: the loop
runs through every successful read (terminating only when input ends,
i.e. camera closed or external interrupt) or stops at a failed read. -/
theorem C10_headless_no_quit (radius : Nat) (a : ℚ) :
    (∀ (inputs : List (CamResult × Bool)) (g : Img),
      Action.display g ∉ captureLoop true radius a inputs) ∧
    (∀ l₁ l₂ : List (CamResult × Bool), l₁.map Prod.fst = l₂.map Prod.fst →
      captureLoop true radius a l₁ = captureLoop true radius a l₂) ∧
    (∀ frames : List (RawFrame × Bool),
      captureLoop true radius a (frames.map (fun p => (CamResult.ok p.1, p.2))) =
        frames.map (fun p => Action.publish (processFrame radius a p.1))) ∧
    (∀ (k : Bool) (rest : List (CamResult × Bool)),
      captureLoop true radius a ((CamResult.fail, k) :: rest) = []) := by
  refine ⟨fun inputs => ?_, fun l₁ => ?_, fun frames => ?_, fun k rest => rfl⟩
  · induction inputs with
    | nil => intro g hg; simp [captureLoop] at hg
    | cons p t ih =>
      intro g hg
      rcases p with ⟨r, key⟩
      cases r with
      | fail => simp [captureLoop] at hg
      | ok f =>
        simp only [captureLoop, if_true, List.mem_cons] at hg
        rcases hg with hg | hg
        · exact absurd hg (by simp)
        · exact ih g hg
  · induction l₁ with
    | nil =>
      intro l₂ h
      rw [List.eq_nil_of_map_eq_nil h.symm]
    | cons p t ih =>
      intro l₂ h
      cases l₂ with
      | nil => simp at h
      | cons q t₂ =>
        simp only [List.map_cons, List.cons.injEq] at h
        rcases p with ⟨r, key⟩
        rcases q with ⟨r₂, key₂⟩
        simp only at h
        cases r with
        | fail => rw [← h.1]; rfl
        | ok f =>
          rw [← h.1]
          simp only [captureLoop, if_true]
          rw [ih t₂ h.2]
  · induction frames with
    | nil => rfl
    | cons p t ih => simp [captureLoop, ih]

/-- Witness for C10: the headless loop ignores a pressed quit key. -/
theorem C10_headless_no_quit_witness :
    captureLoop true 0 1 [(CamResult.ok exFrame, true)] =
      captureLoop true 0 1 [(CamResult.ok exFrame, false)] :=
  (C10_headless_no_quit 0 1).2.1 [(CamResult.ok exFrame, true)]
    [(CamResult.ok exFrame, false)] (by rfl)

end RtspServer
